import Mathlib

/-!
# Verification of the Java Project Assistant static-analysis tools

A shallow embedding of the line-oriented Java source analyzer implemented by
the five tools of this repository (`DependencyAnalyzer`, `TestGenerator`,
`CodeQualityChecker`, `DocumentationGenerator`, `ProjectStructureAnalyzer`),
together with proofs about the parsing, aggregation and reporting behaviour.

Strings are modelled as `List Char` (`Str`): every JavaScript string
operation used by the source (`trim`, `startsWith`, `includes`, `endsWith`,
`toLowerCase`, `replace` with a string pattern, and the handful of regular
expressions) is re-implemented below on `List Char`, so that all
definitions are executable and all concrete facts can be settled by `decide`.

JavaScript floating-point division appears only in ratio computations of the
renderers, always on non-negative integer operands.  It is modelled by
`jsDiv : Nat → Nat → Option ℚ`: division by a non-zero denominator yields
`some` of the exact rational, while division by zero — which in JavaScript
yields `NaN` or `Infinity`, never a finite value — is modelled as `none`.
-/

namespace JavaAssistant

/-- Strings of the analyzed programs, as plain character lists. -/
abbrev Str := List Char

/-- JavaScript whitespace as used by `trim` / `\s` (ASCII part; the source
files and all inputs considered here are ASCII). -/
def isSpaceChar (c : Char) : Bool :=
  c == ' ' || c == '\t' || c == '\n' || c == '\r' || c == '\x0b' || c == '\x0c'

/-- JavaScript `\w` word characters: `[A-Za-z0-9_]`. -/
def isWordChar (c : Char) : Bool :=
  c.isAlphanum || c == '_'

/-- The character class `[\w<>\[\]]` used for Java type tokens in the
method/field regular expressions. -/
def isTypeChar (c : Char) : Bool :=
  isWordChar c || c == '<' || c == '>' || c == '[' || c == ']'

/-- `strHasPre pat s` models JavaScript `s.startsWith(pat)`. -/
def strHasPre : Str → Str → Bool
  | [], _ => true
  | _ :: _, [] => false
  | p :: ps, c :: cs => p == c && strHasPre ps cs

/-- `strHasSub pat s` models JavaScript `s.includes(pat)`. -/
def strHasSub (pat : Str) : Str → Bool
  | [] => pat.isEmpty
  | c :: cs => strHasPre pat (c :: cs) || strHasSub pat cs

/-- `strEndsWith pat s` models JavaScript `s.endsWith(pat)`. -/
def strEndsWith (pat s : Str) : Bool :=
  strHasPre pat.reverse s.reverse

/-- JavaScript `s.trimStart()`. -/
def trimStartL (s : Str) : Str := s.dropWhile isSpaceChar

/-- JavaScript `s.trim()`. -/
def trimL (s : Str) : Str :=
  ((s.dropWhile isSpaceChar).reverse.dropWhile isSpaceChar).reverse

/-- JavaScript `s.toLowerCase()` (ASCII). -/
def toLowerL (s : Str) : Str := s.map Char.toLower

/-- JavaScript `s.replace(pat, '')` with a *string* pattern: removes the
first occurrence of `pat` (if any). -/
def removeFirst (pat : Str) : Str → Str
  | [] => []
  | c :: cs =>
    if strHasPre pat (c :: cs) then (c :: cs).drop pat.length
    else c :: removeFirst pat cs

/-- One attempt of the regular expression `kw\s+(\w+)` at the current
position: the literal keyword, one or more whitespace characters, then the
captured maximal word-character run. -/
def kwIdentAt (kw : Str) (s : Str) : Option Str :=
  if strHasPre kw s then
    let r1 := s.drop kw.length
    if (r1.takeWhile isSpaceChar).isEmpty then none
    else
      let r2 := r1.dropWhile isSpaceChar
      let w := r2.takeWhile isWordChar
      if w.isEmpty then none else some w
  else none

/-- First match of `kw\s+(\w+)` in the string (JavaScript `String.match`
semantics: leftmost starting position; the character classes involved are
pairwise disjoint, so greedy matching needs no backtracking). -/
def kwIdent (kw : Str) : Str → Option Str
  | [] => none
  | c :: cs =>
    match kwIdentAt kw (c :: cs) with
    | some w => some w
    | none => kwIdent kw cs

/-- One attempt of the alternation `(public|private|protected)` at the
current position.  The three literals are mutually exclusive at any given
position, so first-alternative-wins is exact. -/
def visAt (s : Str) : Option (Str × Str) :=
  if strHasPre ("public".data) s then some (("public".data), s.drop 6)
  else if strHasPre ("private".data) s then some (("private".data), s.drop 7)
  else if strHasPre ("protected".data) s then some (("protected".data), s.drop 9)
  else none

/-- One attempt of `(public|private|protected)\s+([\w<>\[\]]+)\s+(\w+)\s*\(`
at the current position, yielding (visibility, return type, name). -/
def methodSigAt (s : Str) : Option (Str × Str × Str) :=
  match visAt s with
  | none => none
  | some (vis, r1) =>
    if (r1.takeWhile isSpaceChar).isEmpty then none
    else
      let r2 := r1.dropWhile isSpaceChar
      let ret := r2.takeWhile isTypeChar
      if ret.isEmpty then none
      else
        let r3 := r2.dropWhile isTypeChar
        if (r3.takeWhile isSpaceChar).isEmpty then none
        else
          let r4 := r3.dropWhile isSpaceChar
          let nm := r4.takeWhile isWordChar
          if nm.isEmpty then none
          else
            match (r4.dropWhile isWordChar).dropWhile isSpaceChar with
            | '(' :: _ => some (vis, ret, nm)
            | _ => none

/-- First match of the method-signature regular expression in the string. -/
def methodSig : Str → Option (Str × Str × Str)
  | [] => none
  | c :: cs =>
    match methodSigAt (c :: cs) with
    | some m => some m
    | none => methodSig cs

/-- One attempt of `(public|private|protected)\s+([\w<>\[\]]+)\s+(\w+)\s*[=;]`
at the current position, yielding (visibility, type, name). -/
def fieldSigAt (s : Str) : Option (Str × Str × Str) :=
  match visAt s with
  | none => none
  | some (vis, r1) =>
    if (r1.takeWhile isSpaceChar).isEmpty then none
    else
      let r2 := r1.dropWhile isSpaceChar
      let ty := r2.takeWhile isTypeChar
      if ty.isEmpty then none
      else
        let r3 := r2.dropWhile isTypeChar
        if (r3.takeWhile isSpaceChar).isEmpty then none
        else
          let r4 := r3.dropWhile isSpaceChar
          let nm := r4.takeWhile isWordChar
          if nm.isEmpty then none
          else
            match (r4.dropWhile isWordChar).dropWhile isSpaceChar with
            | '=' :: _ => some (vis, ty, nm)
            | ';' :: _ => some (vis, ty, nm)
            | _ => none

/-- First match of the field-declaration regular expression in the string. -/
def fieldSig : Str → Option (Str × Str × Str)
  | [] => none
  | c :: cs =>
    match fieldSigAt (c :: cs) with
    | some f => some f
    | none => fieldSig cs

/-- One attempt of the TestGenerator method pattern
`public\s+[\w<>\[\]]+\s+(\w+)\s*\(`, capturing only the method name. -/
def tgMethodAt (s : Str) : Option Str :=
  if strHasPre ("public".data) s then
    let r1 := s.drop 6
    if (r1.takeWhile isSpaceChar).isEmpty then none
    else
      let r2 := r1.dropWhile isSpaceChar
      if (r2.takeWhile isTypeChar).isEmpty then none
      else
        let r3 := r2.dropWhile isTypeChar
        if (r3.takeWhile isSpaceChar).isEmpty then none
        else
          let r4 := r3.dropWhile isSpaceChar
          let nm := r4.takeWhile isWordChar
          if nm.isEmpty then none
          else
            match (r4.dropWhile isWordChar).dropWhile isSpaceChar with
            | '(' :: _ => some nm
            | _ => none
  else none

/-- First match of the TestGenerator method pattern. -/
def tgMethod : Str → Option Str
  | [] => none
  | c :: cs =>
    match tgMethodAt (c :: cs) with
    | some m => some m
    | none => tgMethod cs

/-- One attempt of `import\s+([^;]+)` at the current position.  `\s+` is
greedy, but `[^;]+` also matches whitespace, so when the first character
after the whitespace run is `;` (or the end), the engine backtracks and the
capture is the last whitespace character of the run. -/
def tgImportAt (s : Str) : Option Str :=
  if strHasPre ("import".data) s then
    let r1 := s.drop 6
    let sp := r1.takeWhile isSpaceChar
    if sp.isEmpty then none
    else
      let r2 := r1.dropWhile isSpaceChar
      match r2 with
      | [] => if 2 ≤ sp.length then some [' '] else none
      | ';' :: _ => if 2 ≤ sp.length then some [sp.getLastD ' '] else none
      | _ => some (r2.takeWhile (fun c => !(c == ';')))
  else none

/-- First match of the TestGenerator import pattern. -/
def tgImport : Str → Option Str
  | [] => none
  | c :: cs =>
    match tgImportAt (c :: cs) with
    | some d => some d
    | none => tgImport cs

/-! ## DocumentationGenerator.analyzeJavaFile

Faithful embedding of `DocumentationGenerator.analyzeJavaFile` (lines
144–225 of `DocumentationGenerator.ts`).  The function splits the content
into lines and runs one stateful pass; each numbered block of the loop body
is one `dgStep…` function below, applied in source order. -/

/-- A method signature as recorded by `DocumentationGenerator.extractMethod`. -/
structure MethodSig where
  visibility : Str
  returnType : Str
  name : Str
  javadoc : Str
deriving DecidableEq, Repr

/-- A field declaration as recorded by `DocumentationGenerator.extractField`. -/
structure FieldSig where
  visibility : Str
  type : Str
  name : Str
  javadoc : Str
deriving DecidableEq, Repr

/-- The per-file record produced by `DocumentationGenerator.analyzeJavaFile`. -/
structure DGFileAnalysis where
  package : Str
  className : Str
  type : Str
  imports : List Str
  methods : List MethodSig
  fields : List FieldSig
  javadoc : Str
  filePath : Str
deriving DecidableEq, Repr

/-- The mutable locals of the `DocumentationGenerator.analyzeJavaFile` loop. -/
structure DGState where
  packageName : Str
  className : Str
  type : Str
  imports : List Str
  methods : List MethodSig
  fields : List FieldSig
  javadoc : Str
  currentJavadoc : Str
deriving DecidableEq, Repr

/-- `DocumentationGenerator.extractMethod(line, javadoc)`. -/
def dgExtractMethod (line : Str) (javadoc : Str) : Option MethodSig :=
  match methodSig line with
  | some (v, r, n) => some ⟨v, r, n, trimL javadoc⟩
  | none => none

/-- `DocumentationGenerator.extractField(line, javadoc)`. -/
def dgExtractField (line : Str) (javadoc : Str) : Option FieldSig :=
  match fieldSig line with
  | some (v, t, n) => some ⟨v, t, n, trimL javadoc⟩
  | none => none

/-- Block "Extract package" of the loop body. -/
def dgStepPackage (st : DGState) (line : Str) : DGState :=
  if strHasPre ("package ".data) line then
    { st with packageName := trimL (removeFirst (";".data) (removeFirst ("package ".data) line)) }
  else st

/-- Block "Extract imports" of the loop body. -/
def dgStepImports (st : DGState) (line : Str) : DGState :=
  if strHasPre ("import ".data) line then
    { st with imports := st.imports ++ [trimL (removeFirst (";".data) (removeFirst ("import ".data) line))] }
  else st

/-- Block "Extract class/interface/enum" of the loop body: on any line
containing one of the keywords, overwrite `type` (interface before enum
before class) and — when the identifier pattern matches — `className`,
then attach the accumulated Javadoc buffer and clear it. -/
def dgStepType (st : DGState) (line : Str) : DGState :=
  if strHasSub ("class ".data) line || strHasSub ("interface ".data) line
      || strHasSub ("enum ".data) line then
    let st1 :=
      if strHasSub ("interface ".data) line then
        let st2 := { st with type := "interface".data }
        match kwIdent ("interface".data) line with
        | some nm => { st2 with className := nm }
        | none => st2
      else if strHasSub ("enum ".data) line then
        let st2 := { st with type := "enum".data }
        match kwIdent ("enum".data) line with
        | some nm => { st2 with className := nm }
        | none => st2
      else
        let st2 := { st with type := "class".data }
        match kwIdent ("class".data) line with
        | some nm => { st2 with className := nm }
        | none => st2
    { st1 with javadoc := st1.currentJavadoc, currentJavadoc := [] }
  else st

/-- Block "Extract methods" of the loop body. -/
def dgStepMethods (st : DGState) (line : Str) : DGState :=
  if strHasSub ("(".data) line && strHasSub (")".data) line &&
      (strHasSub ("public ".data) line || strHasSub ("private ".data) line
        || strHasSub ("protected ".data) line) then
    match dgExtractMethod line st.currentJavadoc with
    | some m => { st with methods := st.methods ++ [m], currentJavadoc := [] }
    | none => st
  else st

/-- Block "Extract fields" of the loop body. -/
def dgStepFields (st : DGState) (line : Str) : DGState :=
  if strHasSub (";".data) line && !(strHasSub ("(".data) line) &&
      (strHasSub ("public ".data) line || strHasSub ("private ".data) line
        || strHasSub ("protected ".data) line) then
    match dgExtractField line st.currentJavadoc with
    | some f => { st with fields := st.fields ++ [f], currentJavadoc := [] }
    | none => st
  else st

/-- Block "Collect Javadoc comments" of the loop body. -/
def dgStepJavadoc (st : DGState) (line : Str) : DGState :=
  if strHasPre ("/**".data) line || strHasPre ("*".data) line
      || strHasSub ("*/".data) line then
    { st with currentJavadoc := st.currentJavadoc ++ line ++ ['\n'] }
  else if !(strHasPre ("//".data) line) && !line.isEmpty then
    { st with currentJavadoc := [] }
  else st

/-- One iteration of the `DocumentationGenerator.analyzeJavaFile` loop:
the raw line is trimmed once, then the six blocks run in source order. -/
def dgProcessLine (st : DGState) (rawLine : Str) : DGState :=
  let line := trimL rawLine
  dgStepJavadoc
    (dgStepFields
      (dgStepMethods
        (dgStepType
          (dgStepImports
            (dgStepPackage st line) line) line) line) line) line

/-- Initial loop state (`type` defaults to `'class'`). -/
def dgInitState : DGState :=
  { packageName := [], className := [], type := "class".data, imports := []
    methods := [], fields := [], javadoc := [], currentJavadoc := [] }

/-- `DocumentationGenerator.analyzeJavaFile(content, filePath)`, taking the
content already split at newlines (`content.split('\n')`). -/
def analyzeJavaFileDG (filePath : Str) (lines : List Str) : DGFileAnalysis :=
  let st := lines.foldl dgProcessLine dgInitState
  { package := st.packageName, className := st.className, type := st.type
    imports := st.imports, methods := st.methods, fields := st.fields
    javadoc := st.javadoc, filePath := filePath }

/-! ## ProjectStructureAnalyzer.analyzeJavaFile

Embedding of `ProjectStructureAnalyzer.analyzeJavaFile` (lines 447–515):
same line patterns as the DocumentationGenerator parser but with no import
collection and no Javadoc handling, and methods/fields without javadoc. -/

/-- A method as recorded by the ProjectStructureAnalyzer parser. -/
structure PSAMethod where
  visibility : Str
  returnType : Str
  name : Str
deriving DecidableEq, Repr

/-- A field as recorded by the ProjectStructureAnalyzer parser. -/
structure PSAField where
  visibility : Str
  type : Str
  name : Str
deriving DecidableEq, Repr

/-- The per-file record produced by `ProjectStructureAnalyzer.analyzeJavaFile`. -/
structure PSAFileAnalysis where
  package : Str
  className : Str
  type : Str
  methods : List PSAMethod
  fields : List PSAField
  filePath : Str
deriving DecidableEq, Repr

/-- The mutable locals of the `ProjectStructureAnalyzer.analyzeJavaFile` loop. -/
structure PSAState where
  packageName : Str
  className : Str
  type : Str
  methods : List PSAMethod
  fields : List PSAField
deriving DecidableEq, Repr

/-- Block "Extract package". -/
def psaStepPackage (st : PSAState) (line : Str) : PSAState :=
  if strHasPre ("package ".data) line then
    { st with packageName := trimL (removeFirst (";".data) (removeFirst ("package ".data) line)) }
  else st

/-- Block "Extract class/interface/enum" (identical keyword priority to the
DocumentationGenerator parser). -/
def psaStepType (st : PSAState) (line : Str) : PSAState :=
  if strHasSub ("class ".data) line || strHasSub ("interface ".data) line
      || strHasSub ("enum ".data) line then
    if strHasSub ("interface ".data) line then
      let st2 := { st with type := "interface".data }
      match kwIdent ("interface".data) line with
      | some nm => { st2 with className := nm }
      | none => st2
    else if strHasSub ("enum ".data) line then
      let st2 := { st with type := "enum".data }
      match kwIdent ("enum".data) line with
      | some nm => { st2 with className := nm }
      | none => st2
    else
      let st2 := { st with type := "class".data }
      match kwIdent ("class".data) line with
      | some nm => { st2 with className := nm }
      | none => st2
  else st

/-- Block "Extract methods". -/
def psaStepMethods (st : PSAState) (line : Str) : PSAState :=
  if strHasSub ("(".data) line && strHasSub (")".data) line &&
      (strHasSub ("public ".data) line || strHasSub ("private ".data) line
        || strHasSub ("protected ".data) line) then
    match methodSig line with
    | some (v, r, n) => { st with methods := st.methods ++ [⟨v, r, n⟩] }
    | none => st
  else st

/-- Block "Extract fields". -/
def psaStepFields (st : PSAState) (line : Str) : PSAState :=
  if strHasSub (";".data) line && !(strHasSub ("(".data) line) &&
      (strHasSub ("public ".data) line || strHasSub ("private ".data) line
        || strHasSub ("protected ".data) line) then
    match fieldSig line with
    | some (v, t, n) => { st with fields := st.fields ++ [⟨v, t, n⟩] }
    | none => st
  else st

/-- One iteration of the `ProjectStructureAnalyzer.analyzeJavaFile` loop. -/
def psaProcessLine (st : PSAState) (rawLine : Str) : PSAState :=
  let line := trimL rawLine
  psaStepFields (psaStepMethods (psaStepType (psaStepPackage st line) line) line) line

/-- Initial loop state. -/
def psaInitState : PSAState :=
  { packageName := [], className := [], type := "class".data
    methods := [], fields := [] }

/-- `ProjectStructureAnalyzer.analyzeJavaFile(content, filePath)`. -/
def analyzeJavaFilePSA (filePath : Str) (lines : List Str) : PSAFileAnalysis :=
  let st := lines.foldl psaProcessLine psaInitState
  { package := st.packageName, className := st.className, type := st.type
    methods := st.methods, fields := st.fields, filePath := filePath }

/-! ## TestGenerator.analyzeJavaClass

Embedding of `TestGenerator.analyzeJavaClass` (lines 346–385): package,
class name (only the first `class` line with a successful identifier match,
guarded by `!className`), public method names, and import dependencies. -/

/-- The record produced by `TestGenerator.analyzeJavaClass`. -/
structure TGClassAnalysis where
  packageName : Str
  className : Str
  publicMethods : List Str
  dependencies : List Str
deriving DecidableEq, Repr

/-- Block "Extract package". -/
def tgStepPackage (st : TGClassAnalysis) (line : Str) : TGClassAnalysis :=
  if strHasPre ("package ".data) line then
    { st with packageName := trimL (removeFirst (";".data) (removeFirst ("package ".data) line)) }
  else st

/-- Block "Extract class name": only fires while `className` is still the
empty (falsy) string. -/
def tgStepClassName (st : TGClassAnalysis) (line : Str) : TGClassAnalysis :=
  if strHasSub ("class ".data) line && st.className.isEmpty then
    match kwIdent ("class".data) line with
    | some nm => { st with className := nm }
    | none => st
  else st

/-- Block "Extract public methods" (note: the guard excludes any line
containing `class` without a trailing space). -/
def tgStepMethods (st : TGClassAnalysis) (line : Str) : TGClassAnalysis :=
  if strHasSub ("public ".data) line && strHasSub ("(".data) line &&
      !(strHasSub ("class".data) line) then
    match tgMethod line with
    | some nm => { st with publicMethods := st.publicMethods ++ [nm] }
    | none => st
  else st

/-- Block "Extract imports (dependencies)". -/
def tgStepImports (st : TGClassAnalysis) (line : Str) : TGClassAnalysis :=
  if strHasPre ("import ".data) line then
    match tgImport line with
    | some d => { st with dependencies := st.dependencies ++ [d] }
    | none => st
  else st

/-- One iteration of the `TestGenerator.analyzeJavaClass` loop. -/
def tgProcessLine (st : TGClassAnalysis) (rawLine : Str) : TGClassAnalysis :=
  let line := trimL rawLine
  tgStepImports (tgStepMethods (tgStepClassName (tgStepPackage st line) line) line) line

/-- `TestGenerator.analyzeJavaClass(content)`. -/
def analyzeJavaClassTG (lines : List Str) : TGClassAnalysis :=
  lines.foldl tgProcessLine { packageName := [], className := [], publicMethods := [], dependencies := [] }

/-! ## DocumentationGenerator.analyzeProject

Embedding of the aggregation loop (lines 101–142): the four collections are
built by folding over the per-file records; `totalFiles` is the input list
length, attached on return.  JavaScript objects keyed by strings preserve
insertion order, so the package map is an association list in first-seen
order. -/

/-- One entry of the `packages` map of `DocumentationGenerator.analyzeProject`.
Every record of the package (of any kind) is pushed onto `classes`; the
`interfaces` and `enums` arrays are initialized but never pushed to. -/
structure DGPackage where
  name : Str
  classes : List DGFileAnalysis
  interfaces : List DGFileAnalysis
  enums : List DGFileAnalysis
  methods : Nat
deriving DecidableEq, Repr

/-- The aggregate returned by `DocumentationGenerator.analyzeProject`. -/
structure DGAnalysis where
  packages : List DGPackage
  classes : List DGFileAnalysis
  interfaces : List DGFileAnalysis
  enums : List DGFileAnalysis
  totalFiles : Nat
deriving DecidableEq, Repr

/-- `packages[pkg]` update: create the entry on first sight, then push the
record and add its method count. -/
def dgPackagesAdd (ps : List DGPackage) (a : DGFileAnalysis) : List DGPackage :=
  if ps.any (fun p => p.name = a.package) then
    ps.map (fun p =>
      if p.name = a.package then
        { p with classes := p.classes ++ [a], methods := p.methods + a.methods.length }
      else p)
  else
    ps ++ [{ name := a.package, classes := [a], interfaces := [], enums := []
             methods := a.methods.length }]

/-- One iteration of the `DocumentationGenerator.analyzeProject` loop:
records with a truthy (non-empty) package feed the package map; every
record additionally lands in the flat list of its type kind. -/
def dgAddRecord (acc : DGAnalysis) (a : DGFileAnalysis) : DGAnalysis :=
  let acc := if a.package.isEmpty then acc else { acc with packages := dgPackagesAdd acc.packages a }
  if a.type = "class".data then { acc with classes := acc.classes ++ [a] }
  else if a.type = "interface".data then { acc with interfaces := acc.interfaces ++ [a] }
  else if a.type = "enum".data then { acc with enums := acc.enums ++ [a] }
  else acc

/-- The aggregation loop of `DocumentationGenerator.analyzeProject`. -/
def dgFold (records : List DGFileAnalysis) : DGAnalysis :=
  records.foldl dgAddRecord { packages := [], classes := [], interfaces := [], enums := [], totalFiles := 0 }

/-- `DocumentationGenerator.analyzeProject(javaFiles)` over the per-file
records; `totalFiles` is the number of input files. -/
def analyzeProjectDG (records : List DGFileAnalysis) : DGAnalysis :=
  { dgFold records with totalFiles := records.length }

/-! ## ProjectStructureAnalyzer.analyzeProjectStructure

Embedding of the aggregation loop (lines 82–135).  Records with an empty
package are processed by no branch at all: the whole body is guarded by
`if (analysis.package)`. -/

/-- One entry of the `packages` map of `analyzeProjectStructure`. -/
structure PSAPackage where
  name : Str
  classes : List PSAFileAnalysis
  interfaces : List PSAFileAnalysis
  enums : List PSAFileAnalysis
  totalMethods : Nat
  totalFields : Nat
  fileCount : Nat
deriving DecidableEq, Repr

/-- The aggregate returned by `analyzeProjectStructure`
(the `directoryStructure` display data is omitted: no claim concerns it). -/
structure PSAAnalysis where
  packages : List PSAPackage
  classes : List PSAFileAnalysis
  interfaces : List PSAFileAnalysis
  enums : List PSAFileAnalysis
  totalFiles : Nat
deriving DecidableEq, Repr

/-- `packages[pkg]` update: create on first sight, bump the running counts,
and push the record onto the kind-specific member list. -/
def psaPackagesAdd (ps : List PSAPackage) (a : PSAFileAnalysis) : List PSAPackage :=
  let ps :=
    if ps.any (fun p => p.name = a.package) then ps
    else ps ++ [{ name := a.package, classes := [], interfaces := [], enums := []
                  totalMethods := 0, totalFields := 0, fileCount := 0 }]
  ps.map (fun p =>
    if p.name = a.package then
      let p := { p with fileCount := p.fileCount + 1
                        totalMethods := p.totalMethods + a.methods.length
                        totalFields := p.totalFields + a.fields.length }
      if a.type = "class".data then { p with classes := p.classes ++ [a] }
      else if a.type = "interface".data then { p with interfaces := p.interfaces ++ [a] }
      else if a.type = "enum".data then { p with enums := p.enums ++ [a] }
      else p
    else p)

/-- One iteration of the `analyzeProjectStructure` loop: a record with an
empty (falsy) package contributes nothing, neither to the package map nor
to the flat lists. -/
def psaAddRecord (acc : PSAAnalysis) (a : PSAFileAnalysis) : PSAAnalysis :=
  if a.package.isEmpty then acc
  else
    let acc := { acc with packages := psaPackagesAdd acc.packages a }
    if a.type = "class".data then { acc with classes := acc.classes ++ [a] }
    else if a.type = "interface".data then { acc with interfaces := acc.interfaces ++ [a] }
    else if a.type = "enum".data then { acc with enums := acc.enums ++ [a] }
    else acc

/-- The aggregation loop of `analyzeProjectStructure`. -/
def psaFold (records : List PSAFileAnalysis) : PSAAnalysis :=
  records.foldl psaAddRecord { packages := [], classes := [], interfaces := [], enums := [], totalFiles := 0 }

/-- `ProjectStructureAnalyzer.analyzeProjectStructure(javaFiles, projectPath)`
over the per-file records. -/
def analyzeProjectStructurePSA (records : List PSAFileAnalysis) : PSAAnalysis :=
  { psaFold records with totalFiles := records.length }

/-! ## Renderer quantities

JavaScript float division on the non-negative integer counts of the
aggregates, with division by zero (`NaN`/`Infinity`, never a finite value)
modelled as `none`. -/

/-- JavaScript `a / b` on non-negative integers: `none` when `b = 0`
(`NaN` or `Infinity` in JavaScript — not a defined finite value), otherwise
the exact rational. -/
def jsDiv (a b : Nat) : Option ℚ :=
  if b = 0 then none else some ((a : ℚ) / (b : ℚ))

/-- `generateProjectOverview`: `totalMethods`, summed over the package map. -/
def dgTotalMethods (m : DGAnalysis) : Nat :=
  (m.packages.map (fun p => p.methods)).sum

/-- `generateProjectOverview` line 278:
`totalMethods / analysis.classes.length` — no zero guard. -/
def dgAvgMethodsPerClass (m : DGAnalysis) : Option ℚ :=
  jsDiv (dgTotalMethods m) m.classes.length

/-- `generateProjectOverview` line 284 (rendered only when
`interfaces.length > 0`): `interfaces.length / classes.length * 100`. -/
def dgInterfaceUsage (m : DGAnalysis) : Option ℚ :=
  (jsDiv m.interfaces.length m.classes.length).map (fun q => q * 100)

/-- `generateProjectMetrics`: `totalMethods`, summed over the package map. -/
def psaTotalMethods (m : PSAAnalysis) : Nat :=
  (m.packages.map (fun p => p.totalMethods)).sum

/-- `generateProjectMetrics` line 306:
`totalMethods / Math.max(totalClasses, 1)`. -/
def psaAvgMethodsPerClass (m : PSAAnalysis) : Option ℚ :=
  jsDiv (psaTotalMethods m) (max m.classes.length 1)

/-- `generateArchitectureAnalysis` line 280:
`totalInterfaces / Math.max(totalClasses + totalInterfaces, 1) * 100`. -/
def psaAbstractionLevel (m : PSAAnalysis) : Option ℚ :=
  (jsDiv m.interfaces.length (max (m.classes.length + m.interfaces.length) 1)).map (fun q => q * 100)

/-- Modelled from the spec: "Interface usage / abstraction percentage =
interfaces ÷ (classes + interfaces) × 100" — the reference formula the
rendered value is compared against. -/
def specInterfaceUsagePct (c i : Nat) : ℚ :=
  (i : ℚ) / ((c : ℚ) + (i : ℚ)) * 100

/-! ## Directory walks and exclusion lists -/

/-- `TestGenerator.shouldSkipDirectory` (part_001 lines 277–280): the base
exclusion set, without `test`. -/
def tgSkipDirs : List Str :=
  [("target".data), ("build".data), ("node_modules".data), (".git".data), (".idea".data), ("out".data)]

/-- `DocumentationGenerator.shouldSkipDirectory` (lines 442–445). -/
def dgSkipDirs : List Str :=
  [("target".data), ("build".data), ("node_modules".data), (".git".data), (".idea".data), ("out".data), ("test".data)]

/-- `ProjectStructureAnalyzer.shouldSkipDirectory` (lines 541–544). -/
def psaSkipDirs : List Str :=
  [("target".data), ("build".data), ("node_modules".data), (".git".data), (".idea".data), ("out".data), ("test".data)]

/-- `CodeQualityChecker.shouldSkipDirectory` (lines 955–958). -/
def cqcSkipDirs : List Str :=
  [("target".data), ("build".data), ("node_modules".data), (".git".data), (".idea".data), ("out".data), ("test".data)]

def tgShouldSkipDirectory (d : Str) : Bool := tgSkipDirs.contains d
def dgShouldSkipDirectory (d : Str) : Bool := dgSkipDirs.contains d
def psaShouldSkipDirectory (d : Str) : Bool := psaSkipDirs.contains d
def cqcShouldSkipDirectory (d : Str) : Bool := cqcSkipDirs.contains d

/-- A directory tree, as seen by the recursive `scanDirectory` walks. -/
inductive FSEntry where
  | file (name : Str)
  | dir (name : Str) (children : List FSEntry)

mutual

/-- One entry of the `scanDirectory` loop: descend into non-skipped
directories, collect files ending in `.java` (path built by `join`). -/
def scanEntry (skip : Str → Bool) (pre : Str) : FSEntry → List Str
  | .file n => if strEndsWith (".java".data) n then [pre ++ '/' :: n] else []
  | .dir n children => if skip n then [] else scanEntries skip (pre ++ '/' :: n) children

/-- `scanDirectory` over a directory listing, in listing order. -/
def scanEntries (skip : Str → Bool) (pre : Str) : List FSEntry → List Str
  | [] => []
  | e :: es => scanEntry skip pre e ++ scanEntries skip pre es

end

/-- `findJavaFiles(projectPath)` of TestGenerator, over a modelled tree. -/
def findJavaFilesTG (root : Str) (entries : List FSEntry) : List Str :=
  scanEntries tgShouldSkipDirectory root entries

/-! ## CodeQualityChecker.detectCodeSmells -/

/-- One record pushed by `detectCodeSmells`. -/
structure CodeSmell where
  type : Str
  description : Str
  line : Nat
  file : Str
deriving DecidableEq, Repr

/-- Decimal rendering of a count, for smell descriptions. -/
def natStr (n : Nat) : Str := (Nat.repr n).data

/-- Maximal word-character runs of a string (accumulator-based split). -/
def wordRunsAux : Str → Str → List Str
  | acc, [] => if acc.isEmpty then [] else [acc.reverse]
  | acc, c :: cs =>
    if isWordChar c then wordRunsAux (c :: acc) cs
    else if acc.isEmpty then wordRunsAux [] cs
    else acc.reverse :: wordRunsAux [] cs

def wordRuns (s : Str) : List Str := wordRunsAux [] s

/-- JavaScript `/\b\d{3,}\b/.test(line)`: since `\b` only falls at the
edges of maximal word-character runs and `\d ⊆ \w`, the pattern matches
exactly when some maximal word run is all digits and at least 3 long. -/
def hasMagicNumber (s : Str) : Bool :=
  (wordRuns s).any (fun r => 3 ≤ r.length && r.all Char.isDigit)

/-- The smells pushed for line index `i` (0-based) by the
`CodeQualityChecker.detectCodeSmells` loop (lines 801–865), in push order:
Long Line (on the *trimmed* line length), Deep Nesting, Magic Number,
Empty Catch Block, Technical Debt. -/
def smellsAtLine (filePath : Str) (lines : List Str) (i : Nat) : List CodeSmell :=
  let raw := lines.getD i []
  let line := trimL raw
  let lineNumber := i + 1
  (if 120 < line.length then
    [{ type := "Long Line".data
       description := ("Line too long (".data ++ natStr line.length ++ " characters)".data)
       line := lineNumber, file := filePath }]
   else [])
  ++ (if 24 < raw.length - (trimStartL raw).length then
    [{ type := "Deep Nesting".data, description := "Too many levels of nesting".data
       line := lineNumber, file := filePath }]
   else [])
  ++ (if hasMagicNumber line && !(strHasSub ("//".data) line) && !(strHasSub ("import".data) line) then
    [{ type := "Magic Number".data
       description := "Magic number detected, consider using constants".data
       line := lineNumber, file := filePath }]
   else [])
  ++ (if strHasSub ("catch".data) line && i + 2 < lines.length then
      (if ((lines.drop (i + 1)).take 2).all (fun l => trimL l == [] || trimL l == ['}']) then
        [{ type := "Empty Catch Block".data, description := "Empty catch block detected".data
           line := lineNumber, file := filePath }]
       else [])
   else [])
  ++ (if strHasSub ("TODO".data) line || strHasSub ("FIXME".data) line then
    [{ type := "Technical Debt".data, description := "TODO/FIXME comment found".data
       line := lineNumber, file := filePath }]
   else [])

/-- `CodeQualityChecker.detectCodeSmells(lines, filePath)`. -/
def detectCodeSmells (filePath : Str) (lines : List Str) : List CodeSmell :=
  (List.range lines.length).flatMap (smellsAtLine filePath lines)

/-! ## DependencyAnalyzer.checkDependencyIssues -/

/-- `checkDependencyIssues(groupId, artifactId, version, properties)`
(part_001 lines 169–188); `artifactId` and `properties` are accepted but
never consulted. -/
def checkDependencyIssues (groupId artifactId version : Str) : List Str :=
  (if strHasPre ("$\x7b".data) version then [("uses property reference".data)] else [])
  ++ (if version = "LATEST".data ∨ version = "RELEASE".data then [("uses dynamic version".data)] else [])
  ++ (if groupId = "org.springframework".data ∧ strHasSub ("SNAPSHOT".data) version then [("uses snapshot version".data)] else [])

/-! ## TestGenerator target-file selection (execute, className branch) -/

/-- `javaFiles.find(file => file.toLowerCase().includes(className.toLowerCase()))`. -/
def tgFindTargetFile (javaFiles : List Str) (className : Str) : Option Str :=
  javaFiles.find? (fun f => strHasSub (toLowerL className) (toLowerL f))

/-- The not-found text returned when no path matches. -/
def tgClassNotFound (className : Str) : Str :=
  "❌ Class \"".data ++ className ++ "\" not found in the project.".data

/-- The `className` branch of `TestGenerator.execute` (part_001 lines
236–244): pick the first matching path and hand it to
`generateTestForClass` (abstracted as `generate`, the only consumer of file
contents), or return the not-found message without touching any file. -/
def tgExecuteClassNameBranch (javaFiles : List Str) (className : Str)
    (generate : Str → Str) : Str :=
  match tgFindTargetFile javaFiles className with
  | some f => generate f
  | none => tgClassNotFound className

/-! ## The exception boundaries of the five execute entry points

Each tool's `execute(args)` has the same two-phase shape:
`const { … } = args` destructures the arguments *before* the `try`, and
only then does `try { … } catch (error)` wrap the remaining body, whose
handler returns `'Error <activity>: ' + message` instead of re-throwing.

The model makes both phases explicit.  `args` is an `Option` of the
tool's argument record (`none` is JavaScript `null`/`undefined`, in which
case the destructuring itself throws a TypeError that no handler catches
and the returned promise rejects — modelled as the overall `.error`
outcome).  With `args` present, the body's outcome is passed explicitly
as an `Except` value: `.ok` is the body's returned text, `.error` a
thrown message, which the catch converts into the marker text. -/

/-- The TypeError thrown by `const { … } = args` on a null/undefined
`args` (the payload stands for the engine's TypeError; its exact text is
produced by the JavaScript runtime, not by this repository). -/
def destructureTypeError : Str :=
  "TypeError: cannot destructure properties of null or undefined".data

/-- Arguments of `generate_documentation` per its input schema. -/
structure DGArgs where
  projectPath : Str
  outputPath : Option Str
  documentationType : Option Str
  includePrivate : Option Bool

/-- Arguments of `analyze_dependencies` per its input schema. -/
structure DepArgs where
  projectPath : Str

/-- Arguments of `generate_tests` per its input schema. -/
structure TGArgs where
  projectPath : Str
  className : Option Str
  testFramework : Option Str

/-- Arguments of `check_code_quality` per its input schema. -/
structure CQCArgs where
  projectPath : Str
  filePath : Option Str
  includeMetrics : Option Bool

/-- Arguments of `analyze_project_structure` per its input schema. -/
structure PSAArgs where
  projectPath : Str
  includeArchitecture : Option Bool
  includeMetrics : Option Bool

/-- `DocumentationGenerator.execute(args)` (lines 42–99) at its exception
boundary: destructuring at line 48 precedes the `try` at line 50, so a
missing `args` rejects the promise; otherwise the whole remaining body
runs inside the try and the catch at lines 96–98 returns the marker
text. -/
def dgExecute (args : Option DGArgs) (body : DGArgs → Except Str Str) : Except Str Str :=
  match args with
  | none => .error destructureTypeError
  | some a =>
    .ok (match body a with
      | .ok s => s
      | .error e => "Error generating documentation: ".data ++ e)

/-- `DependencyAnalyzer.execute(args)` (part_001 lines 28–54):
destructuring at line 29 precedes the `try` at line 31; catch at lines
51–53. -/
def depExecute (args : Option DepArgs) (body : DepArgs → Except Str Str) : Except Str Str :=
  match args with
  | none => .error destructureTypeError
  | some a =>
    .ok (match body a with
      | .ok s => s
      | .error e => "Error analyzing dependencies: ".data ++ e)

/-- `TestGenerator.execute(args)` (part_001 lines 226–251):
destructuring at line 227 precedes the `try` at line 229; catch at lines
248–250. -/
def tgExecute (args : Option TGArgs) (body : TGArgs → Except Str Str) : Except Str Str :=
  match args with
  | none => .error destructureTypeError
  | some a =>
    .ok (match body a with
      | .ok s => s
      | .error e => "Error generating tests: ".data ++ e)

/-- `CodeQualityChecker.execute(args)` (lines 581–593): destructuring at
line 582 precedes the `try` at line 584; catch at lines 590–592. -/
def cqcExecute (args : Option CQCArgs) (body : CQCArgs → Except Str Str) : Except Str Str :=
  match args with
  | none => .error destructureTypeError
  | some a =>
    .ok (match body a with
      | .ok s => s
      | .error e => "Error checking code quality: ".data ++ e)

/-- `ProjectStructureAnalyzer.execute(args)` (lines 37–80): destructuring
at line 38 precedes the `try` at line 40; catch at lines 77–79. -/
def psaExecute (args : Option PSAArgs) (body : PSAArgs → Except Str Str) : Except Str Str :=
  match args with
  | none => .error destructureTypeError
  | some a =>
    .ok (match body a with
      | .ok s => s
      | .error e => "Error analyzing project structure: ".data ++ e)

/-- The base exclusion set shared by all four directory walks
(`target`, `build`, `node_modules`, `.git`, `.idea`, `out`). -/
def baseSkipDirs : List Str :=
  [("target".data), ("build".data), ("node_modules".data), (".git".data), (".idea".data), ("out".data)]

/-! ## Concrete demonstration inputs used by counterexamples and witnesses -/

/-- A minimal parsed class file (no package declaration). -/
def demoClassDG : DGFileAnalysis :=
  analyzeJavaFileDG ("A.java".data) [("public class A ".data)]

/-- A minimal parsed interface file (no package declaration). -/
def demoInterfaceDG : DGFileAnalysis :=
  analyzeJavaFileDG ("I.java".data) [("public interface I ".data)]

/-- A minimal interface file with a package, for the structure analyzer. -/
def demoInterfacePSA : PSAFileAnalysis :=
  analyzeJavaFilePSA ("I.java".data) [("package p;".data), ("public interface I ".data)]

/-- A minimal class file with a package declaration. -/
def demoPkgClassDG : DGFileAnalysis :=
  analyzeJavaFileDG ("A.java".data) [("package p;".data), ("public class A ".data)]

/-- A minimal class file without a package, for the structure analyzer. -/
def demoClassPSA : PSAFileAnalysis :=
  analyzeJavaFilePSA ("A.java".data) [("public class A ".data)]

/-! ## Helper lemmas -/

theorem strHasPre_mono (p : Str) : ∀ q t : Str, strHasPre p q = true → strHasPre p (q ++ t) = true := by
  induction p with
  | nil => intro q t _; cases q <;> simp [strHasPre]
  | cons c cs ih =>
    intro q t h
    cases q with
    | nil => simp [strHasPre] at h
    | cons d ds =>
      simp only [strHasPre, Bool.and_eq_true] at h ⊢
      exact ⟨h.1, ih ds t h.2⟩

theorem kwIdentAt_ne_nil {kw s nm : Str} (h : kwIdentAt kw s = some nm) : nm ≠ [] := by
  unfold kwIdentAt at h
  split at h
  · dsimp only at h
    split at h
    · simp at h
    · split at h
      · simp at h
      · rename_i hw
        simp only [Option.some.injEq] at h
        subst h
        simpa [List.isEmpty_iff] using hw
  · simp at h

theorem kwIdent_ne_nil {kw w : Str} : ∀ {s : Str}, kwIdent kw s = some w → w ≠ [] := by
  intro s
  induction s with
  | nil => intro h; simp [kwIdent] at h
  | cons c cs ih =>
    intro h
    rw [kwIdent] at h
    cases hat : kwIdentAt kw (c :: cs) with
    | some v => rw [hat] at h; simp only [Option.some.injEq] at h; subst h; exact kwIdentAt_ne_nil hat
    | none => rw [hat] at h; exact ih h

/-! ## Claim C1 — division-by-zero guards in the ratio renderers -/

/-- Claim C1 counterexample: a project consisting of one interface file has
zero classes, and `DocumentationGenerator.generateProjectOverview` computes
"average methods per class" as `totalMethods / classes.length` with no
`max(count, 1)` guard, so the rendered value is undefined (`NaN`), contrary
to the claim that every such renderer yields a defined finite value. -/
theorem C1_counterexample :
    (analyzeProjectDG [demoInterfaceDG]).classes.length = 0
    ∧ dgAvgMethodsPerClass (analyzeProjectDG [demoInterfaceDG]) = none := by
  constructor
  · decide
  · decide

/-- Claim C1, amended: only `ProjectStructureAnalyzer.generateProjectMetrics`
guards its "average methods per class" with `Math.max(totalClasses, 1)` and
therefore always yields a defined finite value; the
`DocumentationGenerator.generateProjectOverview` renderer divides by the
class count unguarded and yields an undefined (`NaN`/`Infinity`) value
whenever the project has zero classes. -/
theorem C1_amended :
    (∀ m : PSAAnalysis, ∃ q : ℚ, psaAvgMethodsPerClass m = some q) ∧
    (∀ m : DGAnalysis, m.classes = [] → dgAvgMethodsPerClass m = none) := by
  constructor
  · intro m
    have h : max m.classes.length 1 ≠ 0 := by omega
    exact ⟨(psaTotalMethods m : ℚ) / (max m.classes.length 1 : ℚ), by simp [psaAvgMethodsPerClass, jsDiv, h]⟩
  · intro m h
    simp [dgAvgMethodsPerClass, jsDiv, h]

/-- Witness for C1_amended at concrete empty aggregates. -/
theorem C1_amended_witness :
    (∃ q : ℚ, psaAvgMethodsPerClass (analyzeProjectStructurePSA []) = some q) ∧
    dgAvgMethodsPerClass (analyzeProjectDG []) = none :=
  ⟨C1_amended.1 (analyzeProjectStructurePSA []), C1_amended.2 (analyzeProjectDG []) (by decide)⟩

/-! ## Claim C4 — the interface-usage / abstraction percentage -/

/-- Claim C4 counterexample: on a project with one class and one interface
the spec formula gives 1 ÷ (1 + 1) × 100 = 50, but
`DocumentationGenerator.generateProjectOverview` renders
`interfaces.length / classes.length * 100` = 100. -/
theorem C4_counterexample :
    (analyzeProjectDG [demoClassDG, demoInterfaceDG]).interfaces.length = 1
    ∧ dgInterfaceUsage (analyzeProjectDG [demoClassDG, demoInterfaceDG]) = some 100
    ∧ specInterfaceUsagePct 1 1 = 50
    ∧ (100 : ℚ) ≠ 50 := by
  have hi : (analyzeProjectDG [demoClassDG, demoInterfaceDG]).interfaces.length = 1 := by decide
  have hc : (analyzeProjectDG [demoClassDG, demoInterfaceDG]).classes.length = 1 := by decide
  refine ⟨hi, ?_, by norm_num [specInterfaceUsagePct], by norm_num⟩
  rw [dgInterfaceUsage, hi, hc]
  norm_num [jsDiv]

/-- Claim C4, amended: `ProjectStructureAnalyzer.generateArchitectureAnalysis`
reports the spec formula interfaces ÷ (classes + interfaces) × 100 (its
`Math.max(…, 1)` guard is inert as soon as one interface exists), but
`DocumentationGenerator.generateProjectOverview` reports
interfaces ÷ classes × 100 instead. -/
theorem C4_amended :
    (∀ m : PSAAnalysis, 1 ≤ m.interfaces.length →
      psaAbstractionLevel m = some (specInterfaceUsagePct m.classes.length m.interfaces.length)) ∧
    (∀ m : DGAnalysis, m.classes.length ≠ 0 →
      dgInterfaceUsage m = some ((m.interfaces.length : ℚ) / (m.classes.length : ℚ) * 100)) := by
  constructor
  · intro m h
    have hm : max (m.classes.length + m.interfaces.length) 1 = m.classes.length + m.interfaces.length := by omega
    have h0 : m.classes.length + m.interfaces.length ≠ 0 := by omega
    simp [psaAbstractionLevel, jsDiv, hm, h0, specInterfaceUsagePct]
  · intro m h
    simp [dgInterfaceUsage, jsDiv, h]

/-- Witness for C4_amended on concrete one-interface aggregates. -/
theorem C4_amended_witness :
    psaAbstractionLevel (analyzeProjectStructurePSA [demoInterfacePSA])
      = some (specInterfaceUsagePct
          (analyzeProjectStructurePSA [demoInterfacePSA]).classes.length
          (analyzeProjectStructurePSA [demoInterfacePSA]).interfaces.length)
    ∧ dgInterfaceUsage (analyzeProjectDG [demoClassDG])
      = some (((analyzeProjectDG [demoClassDG]).interfaces.length : ℚ)
          / ((analyzeProjectDG [demoClassDG]).classes.length : ℚ) * 100) :=
  ⟨C4_amended.1 (analyzeProjectStructurePSA [demoInterfacePSA]) (by decide),
   C4_amended.2 (analyzeProjectDG [demoClassDG]) (by decide)⟩

/-! ## Claim C5 — directory exclusion sets of the five tools -/

/-- Claim C5 counterexample: `test` is in the exclusion set of three of the
four tools that walk directories (DocumentationGenerator,
ProjectStructureAnalyzer and CodeQualityChecker — all but TestGenerator),
not of exactly two of the five tools as claimed (the fifth tool,
DependencyAnalyzer, reads only `pom.xml`/`build.gradle` and has no walk). -/
theorem C5_counterexample :
    ([tgShouldSkipDirectory ("test".data), dgShouldSkipDirectory ("test".data),
      psaShouldSkipDirectory ("test".data), cqcShouldSkipDirectory ("test".data)].count true = 3)
    ∧ (3 ≠ 2) := by
  constructor
  · decide
  · decide

/-- Claim C5, amended: each of the four walking tools skips exactly the
base set `target`, `build`, `node_modules`, `.git`, `.idea`, `out`, with
`test` additionally skipped by DocumentationGenerator,
ProjectStructureAnalyzer and CodeQualityChecker (three tools) but not by
TestGenerator; every non-skipped directory is descended into and skipped
directories contribute nothing to the walk. -/
theorem C5_amended :
    (∀ d : Str, tgShouldSkipDirectory d = true ↔ d ∈ baseSkipDirs) ∧
    (∀ d : Str, dgShouldSkipDirectory d = true ↔ (d ∈ baseSkipDirs ∨ d = "test".data)) ∧
    (∀ d : Str, psaShouldSkipDirectory d = true ↔ (d ∈ baseSkipDirs ∨ d = "test".data)) ∧
    (∀ d : Str, cqcShouldSkipDirectory d = true ↔ (d ∈ baseSkipDirs ∨ d = "test".data)) ∧
    (∀ (skip : Str → Bool) (pre n : Str) (ch : List FSEntry),
      (skip n = false → scanEntry skip pre (.dir n ch) = scanEntries skip (pre ++ '/' :: n) ch) ∧
      (skip n = true → scanEntry skip pre (.dir n ch) = [])) := by
  refine ⟨?_, ?_, ?_, ?_, ?_⟩
  · intro d
    simp [tgShouldSkipDirectory, tgSkipDirs, baseSkipDirs]
  · intro d
    simp [dgShouldSkipDirectory, dgSkipDirs, baseSkipDirs]
    tauto
  · intro d
    simp [psaShouldSkipDirectory, psaSkipDirs, baseSkipDirs]
    tauto
  · intro d
    simp [cqcShouldSkipDirectory, cqcSkipDirs, baseSkipDirs]
    tauto
  · intro skip pre n ch
    constructor
    · intro h; simp [scanEntry, h]
    · intro h; simp [scanEntry, h]

/-- Witness for C5_amended on concrete directory names and a concrete tree. -/
theorem C5_amended_witness :
    (tgShouldSkipDirectory ("target".data) = true ↔ ("target".data : Str) ∈ baseSkipDirs)
    ∧ scanEntry tgShouldSkipDirectory ("/r".data) (.dir ("src".data) [.file ("A.java".data)])
        = scanEntries tgShouldSkipDirectory ("/r/src".data) [.file ("A.java".data)]
    ∧ scanEntry tgShouldSkipDirectory ("/r".data) (.dir ("target".data) [.file ("A.java".data)]) = [] :=
  ⟨C5_amended.1 ("target".data),
   by
    have h := (C5_amended.2.2.2.2 tgShouldSkipDirectory ("/r".data) ("src".data) [.file ("A.java".data)]).1 (by decide)
    simpa using h,
   (C5_amended.2.2.2.2 tgShouldSkipDirectory ("/r".data) ("target".data) [.file ("A.java".data)]).2 (by decide)⟩

/-! ## Claim C7 — Maven dependency issue flags -/

/-- Claim C7: the three issue flags of
`DependencyAnalyzer.checkDependencyIssues` hold exactly under the stated
conditions (property reference iff the version starts with a dollar-brace,
dynamic iff version is LATEST or RELEASE, snapshot iff the group is
org.springframework and the version contains SNAPSHOT), several flags may
coexist, and the concrete dependency
org.springframework:core:5.0.0-SNAPSHOT is flagged "uses snapshot version". -/
theorem C7_dependency_issue_flags :
    (∀ g a v : Str,
      (("uses property reference".data) ∈ checkDependencyIssues g a v ↔ strHasPre ("$\x7b".data) v = true) ∧
      (("uses dynamic version".data) ∈ checkDependencyIssues g a v ↔ (v = "LATEST".data ∨ v = "RELEASE".data)) ∧
      (("uses snapshot version".data) ∈ checkDependencyIssues g a v ↔
        (g = "org.springframework".data ∧ strHasSub ("SNAPSHOT".data) v = true))) ∧
    ("uses snapshot version".data) ∈
      checkDependencyIssues ("org.springframework".data) ("core".data) ("5.0.0-SNAPSHOT".data) := by
  constructor
  · intro g a v
    unfold checkDependencyIssues
    refine ⟨?_, ?_, ?_⟩ <;> split_ifs with h1 h2 h3 <;> simp_all
  · decide

/-! ## Claim C8 — exception behaviour of the execute entry points -/

/-- Claim C8 counterexample: in every tool the `const { … } = args`
destructuring precedes the `try`, so calling `execute` with a
null/undefined `args` (`none`) throws a TypeError that no catch handles —
the overall outcome is a rejected promise (`.error`), not a returned text
payload, refuting "for every input … never propagates an exception". -/
theorem C8_counterexample :
    dgExecute none (fun _ => Except.ok []) = .error destructureTypeError
    ∧ depExecute none (fun _ => Except.ok []) = .error destructureTypeError
    ∧ tgExecute none (fun _ => Except.ok []) = .error destructureTypeError
    ∧ cqcExecute none (fun _ => Except.ok []) = .error destructureTypeError
    ∧ psaExecute none (fun _ => Except.ok []) = .error destructureTypeError :=
  ⟨rfl, rfl, rfl, rfl, rfl⟩

/-- Claim C8, amended: in each of the five tools the `try/catch` covers
everything *after* the argument destructuring.  Whenever the args object
is present, `execute` never propagates: the body's returned text is
returned as-is, and any thrown failure is caught and returned as the
tool's marker text (the marker begins with "Error ") followed by the
message — some text payload is always returned.  But the destructuring
itself precedes the `try`, so with `args` null/undefined an uncaught
TypeError escapes and the promise rejects. -/
theorem C8_amended :
    ((∀ (a : DGArgs) (body : DGArgs → Except Str Str) (s e : Str),
      (body a = .ok s → dgExecute (some a) body = .ok s) ∧
      (body a = .error e →
        dgExecute (some a) body = .ok ("Error generating documentation: ".data ++ e)) ∧
      (∃ t, dgExecute (some a) body = .ok t)) ∧
     (∀ body : DGArgs → Except Str Str, dgExecute none body = .error destructureTypeError)) ∧
    ((∀ (a : DepArgs) (body : DepArgs → Except Str Str) (s e : Str),
      (body a = .ok s → depExecute (some a) body = .ok s) ∧
      (body a = .error e →
        depExecute (some a) body = .ok ("Error analyzing dependencies: ".data ++ e)) ∧
      (∃ t, depExecute (some a) body = .ok t)) ∧
     (∀ body : DepArgs → Except Str Str, depExecute none body = .error destructureTypeError)) ∧
    ((∀ (a : TGArgs) (body : TGArgs → Except Str Str) (s e : Str),
      (body a = .ok s → tgExecute (some a) body = .ok s) ∧
      (body a = .error e →
        tgExecute (some a) body = .ok ("Error generating tests: ".data ++ e)) ∧
      (∃ t, tgExecute (some a) body = .ok t)) ∧
     (∀ body : TGArgs → Except Str Str, tgExecute none body = .error destructureTypeError)) ∧
    ((∀ (a : CQCArgs) (body : CQCArgs → Except Str Str) (s e : Str),
      (body a = .ok s → cqcExecute (some a) body = .ok s) ∧
      (body a = .error e →
        cqcExecute (some a) body = .ok ("Error checking code quality: ".data ++ e)) ∧
      (∃ t, cqcExecute (some a) body = .ok t)) ∧
     (∀ body : CQCArgs → Except Str Str, cqcExecute none body = .error destructureTypeError)) ∧
    ((∀ (a : PSAArgs) (body : PSAArgs → Except Str Str) (s e : Str),
      (body a = .ok s → psaExecute (some a) body = .ok s) ∧
      (body a = .error e →
        psaExecute (some a) body = .ok ("Error analyzing project structure: ".data ++ e)) ∧
      (∃ t, psaExecute (some a) body = .ok t)) ∧
     (∀ body : PSAArgs → Except Str Str, psaExecute none body = .error destructureTypeError)) ∧
    (∀ e : Str,
      strHasPre ("Error ".data) ("Error generating documentation: ".data ++ e) = true ∧
      strHasPre ("Error ".data) ("Error analyzing dependencies: ".data ++ e) = true ∧
      strHasPre ("Error ".data) ("Error generating tests: ".data ++ e) = true ∧
      strHasPre ("Error ".data) ("Error checking code quality: ".data ++ e) = true ∧
      strHasPre ("Error ".data) ("Error analyzing project structure: ".data ++ e) = true) := by
  refine ⟨⟨?_, fun _ => rfl⟩, ⟨?_, fun _ => rfl⟩, ⟨?_, fun _ => rfl⟩, ⟨?_, fun _ => rfl⟩,
    ⟨?_, fun _ => rfl⟩,
    fun e => ⟨strHasPre_mono _ _ e (by decide), strHasPre_mono _ _ e (by decide),
      strHasPre_mono _ _ e (by decide), strHasPre_mono _ _ e (by decide),
      strHasPre_mono _ _ e (by decide)⟩⟩
  all_goals
    intro a body s e
    refine ⟨fun h => by simp [dgExecute, depExecute, tgExecute, cqcExecute, psaExecute, h],
      fun h => by simp [dgExecute, depExecute, tgExecute, cqcExecute, psaExecute, h], ?_⟩
    cases hb : body a <;>
      simp [dgExecute, depExecute, tgExecute, cqcExecute, psaExecute, hb]

/-- Witness for C8_amended: a body that throws is converted to the marker
text, and a body that returns is passed through. -/
theorem C8_amended_witness :
    dgExecute
        (some { projectPath := "/p".data, outputPath := none,
                documentationType := none, includePrivate := none })
        (fun _ => Except.error ("boom".data))
      = .ok ("Error generating documentation: ".data ++ "boom".data)
    ∧ depExecute (some { projectPath := "/p".data }) (fun _ => Except.ok ("done".data))
      = .ok ("done".data) :=
  ⟨(C8_amended.1.1
      { projectPath := "/p".data, outputPath := none,
        documentationType := none, includePrivate := none }
      (fun _ => Except.error ("boom".data)) [] ("boom".data)).2.1 rfl,
   (C8_amended.2.1.1 { projectPath := "/p".data }
      (fun _ => Except.ok ("done".data)) ("done".data) []).1 rfl⟩

/-! ## Projection lemmas for the parser loop blocks -/

theorem analyzeJavaFileDG_className (fp : Str) (ls : List Str) :
    (analyzeJavaFileDG fp ls).className = (ls.foldl dgProcessLine dgInitState).className := rfl

theorem analyzeJavaFileDG_javadoc (fp : Str) (ls : List Str) :
    (analyzeJavaFileDG fp ls).javadoc = (ls.foldl dgProcessLine dgInitState).javadoc := rfl

theorem analyzeJavaFilePSA_className (fp : Str) (ls : List Str) :
    (analyzeJavaFilePSA fp ls).className = (ls.foldl psaProcessLine psaInitState).className := rfl

theorem dgStepPackage_className (st : DGState) (l : Str) :
    (dgStepPackage st l).className = st.className := by
  unfold dgStepPackage; split <;> rfl

theorem dgStepImports_className (st : DGState) (l : Str) :
    (dgStepImports st l).className = st.className := by
  unfold dgStepImports; split <;> rfl

theorem dgStepMethods_className (st : DGState) (l : Str) :
    (dgStepMethods st l).className = st.className := by
  unfold dgStepMethods; split
  · split <;> rfl
  · rfl

theorem dgStepFields_className (st : DGState) (l : Str) :
    (dgStepFields st l).className = st.className := by
  unfold dgStepFields; split
  · split <;> rfl
  · rfl

theorem dgStepJavadoc_className (st : DGState) (l : Str) :
    (dgStepJavadoc st l).className = st.className := by
  unfold dgStepJavadoc; split
  · rfl
  · split <;> rfl

theorem dgStepPackage_currentJavadoc (st : DGState) (l : Str) :
    (dgStepPackage st l).currentJavadoc = st.currentJavadoc := by
  unfold dgStepPackage; split <;> rfl

theorem dgStepImports_currentJavadoc (st : DGState) (l : Str) :
    (dgStepImports st l).currentJavadoc = st.currentJavadoc := by
  unfold dgStepImports; split <;> rfl

theorem dgStepMethods_javadoc (st : DGState) (l : Str) :
    (dgStepMethods st l).javadoc = st.javadoc := by
  unfold dgStepMethods; split
  · split <;> rfl
  · rfl

theorem dgStepFields_javadoc (st : DGState) (l : Str) :
    (dgStepFields st l).javadoc = st.javadoc := by
  unfold dgStepFields; split
  · split <;> rfl
  · rfl

theorem dgStepJavadoc_javadoc (st : DGState) (l : Str) :
    (dgStepJavadoc st l).javadoc = st.javadoc := by
  unfold dgStepJavadoc; split
  · rfl
  · split <;> rfl

/-- On a clearing line (non-blank, not a line comment, not Javadoc-shaped),
the final block of the loop body leaves an empty Javadoc buffer, whatever
the earlier blocks did. -/
theorem dgStepJavadoc_clear (st : DGState) (l : Str)
    (h1 : strHasPre ("/**".data) l = false) (h2 : strHasPre ("*".data) l = false)
    (h3 : strHasSub ("*/".data) l = false) (h4 : strHasPre ("//".data) l = false)
    (h5 : l.isEmpty = false) :
    (dgStepJavadoc st l).currentJavadoc = [] := by
  simp [dgStepJavadoc, h1, h2, h3, h4, h5]

/-- Processing any clearing line leaves an empty Javadoc buffer. -/
theorem dgProcessLine_clears_buffer (st : DGState) (raw : Str)
    (h1 : strHasPre ("/**".data) (trimL raw) = false)
    (h2 : strHasPre ("*".data) (trimL raw) = false)
    (h3 : strHasSub ("*/".data) (trimL raw) = false)
    (h4 : strHasPre ("//".data) (trimL raw) = false)
    (h5 : (trimL raw).isEmpty = false) :
    (dgProcessLine st raw).currentJavadoc = [] := by
  unfold dgProcessLine
  exact dgStepJavadoc_clear _ _ h1 h2 h3 h4 h5

/-- On a type-declaration line, the loop attaches the current Javadoc
buffer as the record's `javadoc`. -/
theorem dgStepType_javadoc_set (st : DGState) (l : Str)
    (hD : (strHasSub ("class ".data) l || strHasSub ("interface ".data) l
        || strHasSub ("enum ".data) l) = true) :
    (dgStepType st l).javadoc = st.currentJavadoc := by
  unfold dgStepType
  simp only [hD, if_true]
  split
  · split <;> rfl
  · split
    · split <;> rfl
    · split <;> rfl

/-- Processing a type-declaration line sets the record's `javadoc` to the
buffer as it stood before the line. -/
theorem dgProcessLine_javadoc_type (st : DGState) (raw : Str)
    (hD : (strHasSub ("class ".data) (trimL raw) || strHasSub ("interface ".data) (trimL raw)
        || strHasSub ("enum ".data) (trimL raw)) = true) :
    (dgProcessLine st raw).javadoc = st.currentJavadoc := by
  unfold dgProcessLine
  rw [dgStepJavadoc_javadoc, dgStepFields_javadoc, dgStepMethods_javadoc,
    dgStepType_javadoc_set _ _ hD, dgStepImports_currentJavadoc, dgStepPackage_currentJavadoc]

/-- On a `class`-keyword line that mentions neither `interface` nor `enum`
and whose identifier pattern matches, the type block overwrites
`className` with the matched identifier. -/
theorem dgStepType_className_class (st : DGState) (l : Str) (nm : Str)
    (hc : strHasSub ("class ".data) l = true)
    (hi : strHasSub ("interface ".data) l = false)
    (he : strHasSub ("enum ".data) l = false)
    (hm : kwIdent ("class".data) l = some nm) :
    (dgStepType st l).className = nm := by
  unfold dgStepType
  simp [hc, hi, he, hm]

/-- Processing such a line overwrites `className`, whatever the state. -/
theorem dgProcessLine_className_class (st : DGState) (raw : Str) (nm : Str)
    (hc : strHasSub ("class ".data) (trimL raw) = true)
    (hi : strHasSub ("interface ".data) (trimL raw) = false)
    (he : strHasSub ("enum ".data) (trimL raw) = false)
    (hm : kwIdent ("class".data) (trimL raw) = some nm) :
    (dgProcessLine st raw).className = nm := by
  unfold dgProcessLine
  rw [dgStepJavadoc_className, dgStepFields_className, dgStepMethods_className,
    dgStepType_className_class _ _ _ hc hi he hm]

theorem psaStepPackage_className (st : PSAState) (l : Str) :
    (psaStepPackage st l).className = st.className := by
  unfold psaStepPackage; split <;> rfl

theorem psaStepMethods_className (st : PSAState) (l : Str) :
    (psaStepMethods st l).className = st.className := by
  unfold psaStepMethods; split
  · split <;> rfl
  · rfl

theorem psaStepFields_className (st : PSAState) (l : Str) :
    (psaStepFields st l).className = st.className := by
  unfold psaStepFields; split
  · split <;> rfl
  · rfl

theorem psaStepType_className_class (st : PSAState) (l : Str) (nm : Str)
    (hc : strHasSub ("class ".data) l = true)
    (hi : strHasSub ("interface ".data) l = false)
    (he : strHasSub ("enum ".data) l = false)
    (hm : kwIdent ("class".data) l = some nm) :
    (psaStepType st l).className = nm := by
  unfold psaStepType
  simp [hc, hi, he, hm]

theorem psaProcessLine_className_class (st : PSAState) (raw : Str) (nm : Str)
    (hc : strHasSub ("class ".data) (trimL raw) = true)
    (hi : strHasSub ("interface ".data) (trimL raw) = false)
    (he : strHasSub ("enum ".data) (trimL raw) = false)
    (hm : kwIdent ("class".data) (trimL raw) = some nm) :
    (psaProcessLine st raw).className = nm := by
  unfold psaProcessLine
  rw [psaStepFields_className, psaStepMethods_className,
    psaStepType_className_class _ _ _ hc hi he hm]

theorem tgStepPackage_className (st : TGClassAnalysis) (l : Str) :
    (tgStepPackage st l).className = st.className := by
  unfold tgStepPackage; split <;> rfl

theorem tgStepMethods_className (st : TGClassAnalysis) (l : Str) :
    (tgStepMethods st l).className = st.className := by
  unfold tgStepMethods; split
  · split <;> rfl
  · rfl

theorem tgStepImports_className (st : TGClassAnalysis) (l : Str) :
    (tgStepImports st l).className = st.className := by
  unfold tgStepImports; split
  · split <;> rfl
  · rfl

/-- The TestGenerator class-name block never fires once `className` is a
non-empty (truthy) string. -/
theorem tgStepClassName_skip (st : TGClassAnalysis) (l : Str)
    (h : st.className.isEmpty = false) :
    (tgStepClassName st l).className = st.className := by
  simp [tgStepClassName, h]

/-- A whole TestGenerator loop iteration preserves a non-empty `className`. -/
theorem tgProcessLine_className_preserved (st : TGClassAnalysis) (raw : Str)
    (h : st.className.isEmpty = false) :
    (tgProcessLine st raw).className = st.className := by
  unfold tgProcessLine
  rw [tgStepImports_className, tgStepMethods_className, tgStepClassName_skip, tgStepPackage_className]
  rw [tgStepPackage_className]
  exact h

/-- A non-empty `className` survives the rest of the file. -/
theorem tgFoldl_className_preserved (post : List Str) :
    ∀ st : TGClassAnalysis, st.className.isEmpty = false →
      (post.foldl tgProcessLine st).className = st.className := by
  induction post with
  | nil => intro st _; rfl
  | cons l ls ih =>
    intro st h
    rw [List.foldl_cons, ih (tgProcessLine st l) (by rw [tgProcessLine_className_preserved st l h]; exact h),
      tgProcessLine_className_preserved st l h]

/-! ## Claim C2 — which type declaration wins -/

/-- Claim C2 counterexample: in `DocumentationGenerator.analyzeJavaFile`
(and identically in the ProjectStructureAnalyzer parser) a file declaring
`class A` and then `class B` records `className = "B"` — the *last*
matching declaration line wins, not the first as claimed. -/
theorem C2_counterexample :
    (analyzeJavaFileDG ("AB.java".data) [("class A".data), ("class B".data)]).className = "B".data
    ∧ (analyzeJavaFilePSA ("AB.java".data) [("class A".data), ("class B".data)]).className = "B".data
    ∧ ("B".data : Str) ≠ "A".data := by
  refine ⟨by decide, by decide, by decide⟩

/-- Claim C2, amended: each parser still records at most one `typeName`
per file (a single string field), but in `DocumentationGenerator` and
`ProjectStructureAnalyzer` every matching declaration line *overwrites* it,
so the last match wins — appending a further matching `class` line to any
file changes the recorded name to its identifier; only
`TestGenerator.analyzeJavaClass`, whose block is guarded by `!className`,
keeps the identifier of the first matching line. -/
theorem C2_amended :
    (∀ (fp : Str) (pre : List Str) (D nm : Str),
      strHasSub ("class ".data) (trimL D) = true →
      strHasSub ("interface ".data) (trimL D) = false →
      strHasSub ("enum ".data) (trimL D) = false →
      kwIdent ("class".data) (trimL D) = some nm →
      (analyzeJavaFileDG fp (pre ++ [D])).className = nm) ∧
    (∀ (fp : Str) (pre : List Str) (D nm : Str),
      strHasSub ("class ".data) (trimL D) = true →
      strHasSub ("interface ".data) (trimL D) = false →
      strHasSub ("enum ".data) (trimL D) = false →
      kwIdent ("class".data) (trimL D) = some nm →
      (analyzeJavaFilePSA fp (pre ++ [D])).className = nm) ∧
    (∀ (D : Str) (post : List Str) (nm : Str),
      strHasSub ("class ".data) (trimL D) = true →
      kwIdent ("class".data) (trimL D) = some nm →
      (analyzeJavaClassTG (D :: post)).className = nm) := by
  refine ⟨?_, ?_, ?_⟩
  · intro fp pre D nm hc hi he hm
    rw [analyzeJavaFileDG_className, List.foldl_append, List.foldl_cons, List.foldl_nil,
      dgProcessLine_className_class _ _ _ hc hi he hm]
  · intro fp pre D nm hc hi he hm
    rw [analyzeJavaFilePSA_className, List.foldl_append, List.foldl_cons, List.foldl_nil,
      psaProcessLine_className_class _ _ _ hc hi he hm]
  · intro D post nm hc hm
    have hfirst : (tgProcessLine { packageName := [], className := [], publicMethods := [], dependencies := [] } D).className = nm := by
      unfold tgProcessLine
      rw [tgStepImports_className, tgStepMethods_className]
      have hpk : (tgStepPackage { packageName := [], className := [], publicMethods := [], dependencies := [] } (trimL D)).className = ([] : Str) :=
        tgStepPackage_className _ _
      unfold tgStepClassName
      rw [hpk]
      simp [hc, hm]
    have hne : nm ≠ [] := kwIdent_ne_nil hm
    show (List.foldl tgProcessLine _ (D :: post)).className = nm
    rw [List.foldl_cons, tgFoldl_className_preserved post _ (by rw [hfirst]; simpa [List.isEmpty_iff] using hne), hfirst]

/-- Witness for C2_amended at concrete two-declaration files. -/
theorem C2_amended_witness :
    (analyzeJavaFileDG ("AB.java".data) [("class A".data), ("class B".data)]).className = "B".data
    ∧ (analyzeJavaFilePSA ("CD.java".data) [("class C".data), ("class D".data)]).className = "D".data
    ∧ (analyzeJavaClassTG [("class E".data), ("class F".data)]).className = "E".data :=
  ⟨C2_amended.1 ("AB.java".data) [("class A".data)] ("class B".data) ("B".data)
      (by decide) (by decide) (by decide) (by decide),
   C2_amended.2.1 ("CD.java".data) [("class C".data)] ("class D".data) ("D".data)
      (by decide) (by decide) (by decide) (by decide),
   C2_amended.2.2 ("class E".data) [("class F".data)] ("E".data) (by decide) (by decide)⟩

/-! ## Claim C6 — intervening code drops the pending Javadoc -/

/-- Claim C6: in `DocumentationGenerator.analyzeJavaFile`, if any
non-blank line that is neither Javadoc-shaped (`/**`, `*`, or containing
the close marker) nor a `//` line comment stands between the accumulated
Javadoc block and the next type declaration, the buffer is cleared by that
line, so the declaration's recorded `javadoc` is empty — the block is
attached to nothing. -/
theorem C6_javadoc_dropped (fp : Str) (pre : List Str) (L D : Str)
    (h1 : strHasPre ("/**".data) (trimL L) = false)
    (h2 : strHasPre ("*".data) (trimL L) = false)
    (h3 : strHasSub ("*/".data) (trimL L) = false)
    (h4 : strHasPre ("//".data) (trimL L) = false)
    (h5 : (trimL L).isEmpty = false)
    (hD : (strHasSub ("class ".data) (trimL D) || strHasSub ("interface ".data) (trimL D)
        || strHasSub ("enum ".data) (trimL D)) = true) :
    (analyzeJavaFileDG fp (pre ++ [L, D])).javadoc = [] := by
  rw [analyzeJavaFileDG_javadoc, List.foldl_append, List.foldl_cons, List.foldl_cons, List.foldl_nil,
    dgProcessLine_javadoc_type _ _ hD, dgProcessLine_clears_buffer _ _ h1 h2 h3 h4 h5]

/-- Witness for C6 on a concrete file: a Javadoc block, an intervening
statement, then the class declaration — whose javadoc ends up empty. -/
theorem C6_witness :
    (analyzeJavaFileDG ("A.java".data)
      [("/** Documented. */".data), ("int x".data), ("public class A ".data)]).javadoc = [] :=
  C6_javadoc_dropped ("A.java".data) [("/** Documented. */".data)] ("int x".data)
    ("public class A ".data) (by decide) (by decide) (by decide) (by decide) (by decide) (by decide)

/-! ## Helper lemmas for the code-smell scan -/

/-- Every smell pushed while scanning line index `j` carries line number
`j + 1`. -/
theorem smellsAtLine_line_eq (fp : Str) (lines : List Str) (j : Nat) :
    ∀ s ∈ smellsAtLine fp lines j, s.line = j + 1 := by
  intro s hs
  unfold smellsAtLine at hs
  dsimp only at hs
  simp only [List.mem_append] at hs
  rcases hs with ((((h | h) | h) | h) | h) <;>
    (repeat' split at h) <;> simp_all

theorem countP_flatMap (p : CodeSmell → Bool) (f : Nat → List CodeSmell) :
    ∀ l : List Nat, (l.flatMap f).countP p = (l.map (fun x => (f x).countP p)).sum := by
  intro l
  induction l with
  | nil => rfl
  | cons a as ih => simp [List.flatMap_cons, List.countP_append, ih]

theorem sum_map_eq_single {g : Nat → Nat} {i : Nat} :
    ∀ js : List Nat, js.Nodup → i ∈ js → (∀ j ∈ js, j ≠ i → g j = 0) →
      (js.map g).sum = g i := by
  intro js
  induction js with
  | nil => intro _ h; simp at h
  | cons a as ih =>
    intro hnd hmem hz
    rcases List.mem_cons.mp hmem with rfl | hmem'
    · have hzero : (as.map g).sum = 0 := by
        apply List.sum_eq_zero
        intro x hx
        rcases List.mem_map.mp hx with ⟨j, hj, rfl⟩
        refine hz j (List.mem_cons_of_mem _ hj) ?_
        rintro rfl
        exact (List.nodup_cons.mp hnd).1 hj
      simp [hzero]
    · have ha : g a = 0 := by
        refine hz a (List.mem_cons_self _ _) ?_
        rintro rfl
        exact (List.nodup_cons.mp hnd).1 hmem'
      simp [ha, ih (List.nodup_cons.mp hnd).2 hmem'
        (fun j hj hji => hz j (List.mem_cons_of_mem _ hj) hji)]

theorem countP_ite_singleton {α : Type} (p : α → Bool) (c : Prop) [Decidable c] (a : α) :
    (if c then [a] else []).countP p = if c then (if p a then 1 else 0) else 0 := by
  split <;> simp [List.countP_cons]

theorem countP_ite_cond {α : Type} (p : α → Bool) (c : Prop) [Decidable c] (l : List α) :
    (if c then l else []).countP p = if c then l.countP p else 0 := by
  split <;> simp

/-- Scanning line index `i` itself yields exactly one Long Line smell with
line number `i + 1` when the trimmed line exceeds 120 characters, and none
otherwise. -/
theorem countP_longline_self (fp : Str) (lines : List Str) (i : Nat) :
    (smellsAtLine fp lines i).countP
        (fun s => s.type == ("Long Line".data) && s.line == i + 1)
      = if 120 < (trimL (lines.getD i [])).length then 1 else 0 := by
  have hDN : (("Deep Nesting".data : Str) == "Long Line".data) = false := by decide
  have hMN : (("Magic Number".data : Str) == "Long Line".data) = false := by decide
  have hEC : (("Empty Catch Block".data : Str) == "Long Line".data) = false := by decide
  have hTD : (("Technical Debt".data : Str) == "Long Line".data) = false := by decide
  unfold smellsAtLine
  dsimp only
  simp only [List.countP_append, countP_ite_cond, countP_ite_singleton]
  simp [hDN, hMN, hEC, hTD]

/-! ## Claim C9 — Long Line detection -/

set_option maxRecDepth 40000 in
/-- Claim C9 counterexample: a raw line of 130 characters (30 leading
spaces, 100 letters) is longer than 120 characters, yet
`detectCodeSmells` emits no Long Line smell for it, because the check
`line.length > 120` is applied to the *trimmed* line (length 100). -/
theorem C9_counterexample :
    (([(List.replicate 30 ' ' ++ List.replicate 100 'a')] : List Str).getD 0 []).length = 130
    ∧ 120 < (([(List.replicate 30 ' ' ++ List.replicate 100 'a')] : List Str).getD 0 []).length
    ∧ (detectCodeSmells ("F.java".data)
          [(List.replicate 30 ' ' ++ List.replicate 100 'a')]).countP
        (fun s => s.type == ("Long Line".data)) = 0 := by
  refine ⟨by decide, by decide, by decide⟩

/-- Claim C9, amended: for every file and index `i`, `detectCodeSmells`
emits exactly one Long Line smell with 1-based line number `i + 1` when
the *trimmed* line `i` is strictly longer than 120 characters, and none
otherwise; in particular a line of 130 non-whitespace characters yields
exactly one Long Line smell at its line number. -/
theorem C9_amended (fp : Str) (lines : List Str) (i : Nat) (h : i < lines.length) :
    (detectCodeSmells fp lines).countP
        (fun s => s.type == ("Long Line".data) && s.line == i + 1)
      = if 120 < (trimL (lines.getD i [])).length then 1 else 0 := by
  unfold detectCodeSmells
  rw [countP_flatMap]
  have hz : ∀ j ∈ List.range lines.length, j ≠ i →
      (smellsAtLine fp lines j).countP
        (fun s => s.type == ("Long Line".data) && s.line == i + 1) = 0 := by
    intro j _ hji
    apply List.countP_eq_zero.mpr
    intro s hs
    have hline := smellsAtLine_line_eq fp lines j s hs
    simp only [hline, Bool.and_eq_true, beq_iff_eq, not_and]
    intro _ heq
    exact hji (by omega)
  rw [sum_map_eq_single (List.range lines.length) (List.nodup_range _)
    (List.mem_range.mpr h) hz]
  exact countP_longline_self fp lines i

set_option maxRecDepth 40000 in
/-- Witness for C9_amended: a single line of 130 letters yields exactly
one Long Line smell at line 1. -/
theorem C9_amended_witness :
    (detectCodeSmells ("F.java".data) [List.replicate 130 'a']).countP
        (fun s => s.type == ("Long Line".data) && s.line == 0 + 1) = 1 := by
  rw [C9_amended ("F.java".data) [List.replicate 130 'a'] 0 (by decide)]
  decide

/-! ## Claim C10 — generate_tests target-file selection -/

/-- Claim C10: with a `className` argument, `TestGenerator.execute` picks
the first file in walk order whose path, lowercased, contains the
lowercased `className` as a substring (matching on the path string, so a
className occurring in another file's path can win, as the concrete
UserController/User example shows); when no path matches, it returns the
class-not-found message, independently of any file contents. -/
theorem C10_target_selection :
    (∀ (cn : Str) (pre post : List Str) (f : Str),
      (∀ g ∈ pre, strHasSub (toLowerL cn) (toLowerL g) = false) →
      strHasSub (toLowerL cn) (toLowerL f) = true →
      tgFindTargetFile (pre ++ f :: post) cn = some f) ∧
    (∀ (cn : Str) (javaFiles : List Str) (generate : Str → Str),
      (∀ g ∈ javaFiles, strHasSub (toLowerL cn) (toLowerL g) = false) →
      tgExecuteClassNameBranch javaFiles cn generate = tgClassNotFound cn) ∧
    tgFindTargetFile [("/p/UserController.java".data), ("/p/User.java".data)] ("User".data)
      = some ("/p/UserController.java".data) := by
  refine ⟨?_, ?_, by decide⟩
  · intro cn pre post f hpre hf
    unfold tgFindTargetFile
    induction pre with
    | nil => simp [List.find?_cons_of_pos, hf]
    | cons g gs ih =>
      rw [List.cons_append, List.find?_cons_of_neg _ (by simp [hpre g (List.mem_cons_self _ _)])]
      exact ih (fun x hx => hpre x (List.mem_cons_of_mem _ hx))
  · intro cn js gen h
    unfold tgExecuteClassNameBranch tgFindTargetFile
    rw [List.find?_eq_none.mpr (fun x hx => by simp [h x hx])]

/-- Witness for C10 on concrete paths. -/
theorem C10_witness :
    tgFindTargetFile [("/p/Main.java".data), ("/p/User.java".data)] ("User".data)
      = some ("/p/User.java".data)
    ∧ tgExecuteClassNameBranch [("/p/Main.java".data)] ("User".data) (fun f => f)
      = tgClassNotFound ("User".data) :=
  ⟨C10_target_selection.1 ("User".data) [("/p/Main.java".data)] [] ("/p/User.java".data)
      (by decide) (by decide),
   C10_target_selection.2.1 ("User".data) [("/p/Main.java".data)] (fun f => f) (by decide)⟩

/-! ## Helper lemmas for the aggregation folds -/

theorem isEmpty_false_of_ne_nil {l : Str} (h : l ≠ []) : l.isEmpty = false := by
  cases l with
  | nil => exact absurd rfl h
  | cons c cs => rfl

theorem dgFold_append (rs : List DGFileAnalysis) (r : DGFileAnalysis) :
    dgFold (rs ++ [r]) = dgAddRecord (dgFold rs) r := by
  simp [dgFold, List.foldl_append]

theorem analyzeProjectDG_packages (rs : List DGFileAnalysis) :
    (analyzeProjectDG rs).packages = (dgFold rs).packages := rfl

theorem analyzeProjectDG_classes (rs : List DGFileAnalysis) :
    (analyzeProjectDG rs).classes = (dgFold rs).classes := rfl

theorem analyzeProjectDG_interfaces (rs : List DGFileAnalysis) :
    (analyzeProjectDG rs).interfaces = (dgFold rs).interfaces := rfl

theorem analyzeProjectDG_enums (rs : List DGFileAnalysis) :
    (analyzeProjectDG rs).enums = (dgFold rs).enums := rfl

theorem psaFold_append (rs : List PSAFileAnalysis) (r : PSAFileAnalysis) :
    psaFold (rs ++ [r]) = psaAddRecord (psaFold rs) r := by
  simp [psaFold, List.foldl_append]

/-- A record with an empty (falsy) package is entirely ignored by the
ProjectStructureAnalyzer aggregation step. -/
theorem psaAddRecord_empty (acc : PSAAnalysis) (r : PSAFileAnalysis)
    (h : r.package = []) : psaAddRecord acc r = acc := by
  simp [psaAddRecord, h]

/-- The packages component of one DocumentationGenerator aggregation step. -/
theorem dgAddRecord_packages (acc : DGAnalysis) (a : DGFileAnalysis) :
    (dgAddRecord acc a).packages =
      if a.package.isEmpty then acc.packages else dgPackagesAdd acc.packages a := by
  unfold dgAddRecord
  dsimp only
  split_ifs <;> rfl

/-- The flat class list of one DocumentationGenerator aggregation step. -/
theorem dgAddRecord_classes_of_class (acc : DGAnalysis) (a : DGFileAnalysis)
    (ht : a.type = "class".data) :
    (dgAddRecord acc a).classes = acc.classes ++ [a] := by
  unfold dgAddRecord
  dsimp only
  split_ifs with h1 h2 <;> simp_all

theorem dgAddRecord_interfaces_of_interface (acc : DGAnalysis) (a : DGFileAnalysis)
    (ht : a.type = "interface".data) :
    (dgAddRecord acc a).interfaces = acc.interfaces ++ [a] := by
  have hne : a.type ≠ "class".data := by rw [ht]; decide
  unfold dgAddRecord
  dsimp only
  split_ifs with h1 h2 <;> simp_all

theorem dgAddRecord_enums_of_enum (acc : DGAnalysis) (a : DGFileAnalysis)
    (ht : a.type = "enum".data) :
    (dgAddRecord acc a).enums = acc.enums ++ [a] := by
  have hne : a.type ≠ "class".data := by rw [ht]; decide
  have hne2 : a.type ≠ "interface".data := by rw [ht]; decide
  unfold dgAddRecord
  dsimp only
  split_ifs with h1 h2 <;> simp_all

/-- `dgPackagesAdd` keeps the package names pairwise distinct. -/
theorem dgPackagesAdd_nodup (ps : List DGPackage) (a : DGFileAnalysis)
    (hnd : (ps.map (fun p => p.name)).Nodup) :
    ((dgPackagesAdd ps a).map (fun p => p.name)).Nodup := by
  unfold dgPackagesAdd
  split
  · rw [List.map_map]
    have heq : ((fun p : DGPackage => p.name) ∘
        (fun p : DGPackage => if p.name = a.package then
          { p with classes := p.classes ++ [a], methods := p.methods + a.methods.length }
        else p)) = fun p : DGPackage => p.name := by
      funext p
      by_cases h : p.name = a.package <;> simp [h]
    rw [heq]
    exact hnd
  · rename_i hany
    rw [List.map_append, List.nodup_append]
    refine ⟨hnd, by simp, ?_⟩
    intro x hx hx2
    simp only [List.map_cons, List.map_nil, List.mem_singleton] at hx2
    rcases List.mem_map.mp hx with ⟨q, hq, hqn⟩
    apply hany
    rw [List.any_eq_true]
    exact ⟨q, hq, by simp [hqn.trans hx2]⟩

/-- `dgPackagesAdd` keeps every member record's package equal to the name
of the aggregate holding it. -/
theorem dgPackagesAdd_consistent (ps : List DGPackage) (a : DGFileAnalysis)
    (hcons : ∀ p ∈ ps, ∀ x ∈ p.classes, x.package = p.name) :
    ∀ p ∈ dgPackagesAdd ps a, ∀ x ∈ p.classes, x.package = p.name := by
  unfold dgPackagesAdd
  split
  · intro p hp x hx
    rcases List.mem_map.mp hp with ⟨q, hq, rfl⟩
    by_cases h : q.name = a.package
    · rw [if_pos h] at hx ⊢
      rcases List.mem_append.mp hx with hx' | hx'
      · exact hcons q hq x hx'
      · rw [List.mem_singleton] at hx'
        subst hx'
        exact h.symm
    · rw [if_neg h] at hx ⊢
      exact hcons q hq x hx
  · intro p hp x hx
    rcases List.mem_append.mp hp with hp' | hp'
    · exact hcons p hp' x hx
    · rw [List.mem_singleton] at hp'
      subst hp'
      rw [List.mem_singleton] at hx
      subst hx
      rfl

/-- After `dgPackagesAdd`, the record belongs to an aggregate named after
its package. -/
theorem dgPackagesAdd_mem (ps : List DGPackage) (a : DGFileAnalysis) :
    ∃ p ∈ dgPackagesAdd ps a, p.name = a.package ∧ a ∈ p.classes := by
  unfold dgPackagesAdd
  split
  · rename_i hany
    simp only [List.any_eq_true, decide_eq_true_eq] at hany
    rcases hany with ⟨q, hq, hqname⟩
    refine ⟨{ q with classes := q.classes ++ [a], methods := q.methods + a.methods.length },
      List.mem_map.mpr ⟨q, hq, by simp [hqname]⟩, by simpa using hqname, by simp⟩
  · exact ⟨_, List.mem_append_right _ (List.mem_singleton.mpr rfl), rfl, by simp⟩

/-- Existing membership in some aggregate survives `dgPackagesAdd`. -/
theorem dgPackagesAdd_mem_mono (ps : List DGPackage) (a : DGFileAnalysis)
    {nm : Str} {x : DGFileAnalysis}
    (h : ∃ p ∈ ps, p.name = nm ∧ x ∈ p.classes) :
    ∃ p ∈ dgPackagesAdd ps a, p.name = nm ∧ x ∈ p.classes := by
  rcases h with ⟨q, hq, hname, hx⟩
  unfold dgPackagesAdd
  split
  · by_cases h : q.name = a.package
    · exact ⟨{ q with classes := q.classes ++ [a], methods := q.methods + a.methods.length },
        List.mem_map.mpr ⟨q, hq, by simp [h]⟩, by simpa using hname,
        List.mem_append_left _ hx⟩
    · exact ⟨q, List.mem_map.mpr ⟨q, hq, by simp [h]⟩, hname, hx⟩
  · exact ⟨q, List.mem_append_left _ hq, hname, hx⟩

/-- One aggregation step preserves distinctness of package names. -/
theorem dgAddRecord_nodup (acc : DGAnalysis) (a : DGFileAnalysis)
    (hnd : (acc.packages.map (fun p => p.name)).Nodup) :
    (((dgAddRecord acc a).packages).map (fun p => p.name)).Nodup := by
  rw [dgAddRecord_packages]
  split
  · exact hnd
  · exact dgPackagesAdd_nodup _ _ hnd

/-- One aggregation step preserves member/name consistency. -/
theorem dgAddRecord_consistent (acc : DGAnalysis) (a : DGFileAnalysis)
    (hcons : ∀ p ∈ acc.packages, ∀ x ∈ p.classes, x.package = p.name) :
    ∀ p ∈ (dgAddRecord acc a).packages, ∀ x ∈ p.classes, x.package = p.name := by
  rw [dgAddRecord_packages]
  split
  · exact hcons
  · exact dgPackagesAdd_consistent _ _ hcons

/-- One aggregation step preserves existing aggregate membership. -/
theorem dgAddRecord_mem_mono (acc : DGAnalysis) (a : DGFileAnalysis)
    {nm : Str} {x : DGFileAnalysis}
    (h : ∃ p ∈ acc.packages, p.name = nm ∧ x ∈ p.classes) :
    ∃ p ∈ (dgAddRecord acc a).packages, p.name = nm ∧ x ∈ p.classes := by
  rw [dgAddRecord_packages]
  split
  · exact h
  · exact dgPackagesAdd_mem_mono _ _ h

/-- Folding a record with a non-empty package puts it into an aggregate
named after its package. -/
theorem dgAddRecord_mem_self (acc : DGAnalysis) (a : DGFileAnalysis)
    (hne : a.package ≠ []) :
    ∃ p ∈ (dgAddRecord acc a).packages, p.name = a.package ∧ a ∈ p.classes := by
  rw [dgAddRecord_packages, if_neg (by simp [isEmpty_false_of_ne_nil hne])]
  exact dgPackagesAdd_mem _ _

theorem dgFoldl_nodup (l : List DGFileAnalysis) :
    ∀ acc : DGAnalysis, (acc.packages.map (fun p => p.name)).Nodup →
      (((l.foldl dgAddRecord acc).packages).map (fun p => p.name)).Nodup := by
  induction l with
  | nil => intro acc h; exact h
  | cons a as ih => intro acc h; exact ih _ (dgAddRecord_nodup acc a h)

theorem dgFoldl_consistent (l : List DGFileAnalysis) :
    ∀ acc : DGAnalysis, (∀ p ∈ acc.packages, ∀ x ∈ p.classes, x.package = p.name) →
      ∀ p ∈ (l.foldl dgAddRecord acc).packages, ∀ x ∈ p.classes, x.package = p.name := by
  induction l with
  | nil => intro acc h; exact h
  | cons a as ih => intro acc h; exact ih _ (dgAddRecord_consistent acc a h)

theorem dgFoldl_mem_mono (l : List DGFileAnalysis) {nm : Str} {x : DGFileAnalysis} :
    ∀ acc : DGAnalysis, (∃ p ∈ acc.packages, p.name = nm ∧ x ∈ p.classes) →
      ∃ p ∈ (l.foldl dgAddRecord acc).packages, p.name = nm ∧ x ∈ p.classes := by
  induction l with
  | nil => intro acc h; exact h
  | cons a as ih => intro acc h; exact ih _ (dgAddRecord_mem_mono acc a h)

/-! ## Claim C3 — package-less records in the aggregate model -/

/-- Claim C3 counterexample: a parsed class record with an empty package
is dropped entirely by `ProjectStructureAnalyzer.analyzeProjectStructure`
— it does not appear in the flat `classes` list either, because the whole
loop body is guarded by `if (analysis.package)`. -/
theorem C3_counterexample :
    demoClassPSA.package = [] ∧ demoClassPSA.type = "class".data
    ∧ (analyzeProjectStructurePSA [demoClassPSA]).classes = [] :=
  ⟨by decide, by decide, by decide⟩

/-- Claim C3, amended: in `DocumentationGenerator.analyzeProject` a record
with a non-empty package belongs to exactly one PackageAggregate, and a
record with an empty package leaves the package map untouched while still
being appended to the flat list of its type kind; in
`ProjectStructureAnalyzer.analyzeProjectStructure`, however, a record with
an empty package is excluded from the package map *and* from all flat
lists (only `totalFiles` still counts it). -/
theorem C3_amended :
    (∀ (records : List DGFileAnalysis) (r : DGFileAnalysis),
      r ∈ records → r.package ≠ [] →
      ∃! p : DGPackage, p ∈ (analyzeProjectDG records).packages ∧ r ∈ p.classes) ∧
    (∀ (rs : List DGFileAnalysis) (r : DGFileAnalysis), r.package = [] →
      (analyzeProjectDG (rs ++ [r])).packages = (analyzeProjectDG rs).packages ∧
      (r.type = "class".data →
        (analyzeProjectDG (rs ++ [r])).classes = (analyzeProjectDG rs).classes ++ [r]) ∧
      (r.type = "interface".data →
        (analyzeProjectDG (rs ++ [r])).interfaces = (analyzeProjectDG rs).interfaces ++ [r]) ∧
      (r.type = "enum".data →
        (analyzeProjectDG (rs ++ [r])).enums = (analyzeProjectDG rs).enums ++ [r])) ∧
    (∀ (rs : List PSAFileAnalysis) (r : PSAFileAnalysis), r.package = [] →
      (analyzeProjectStructurePSA (rs ++ [r])).packages = (analyzeProjectStructurePSA rs).packages ∧
      (analyzeProjectStructurePSA (rs ++ [r])).classes = (analyzeProjectStructurePSA rs).classes ∧
      (analyzeProjectStructurePSA (rs ++ [r])).interfaces = (analyzeProjectStructurePSA rs).interfaces ∧
      (analyzeProjectStructurePSA (rs ++ [r])).enums = (analyzeProjectStructurePSA rs).enums ∧
      (analyzeProjectStructurePSA (rs ++ [r])).totalFiles = rs.length + 1) := by
  refine ⟨?_, ?_, ?_⟩
  · intro records r hr hne
    obtain ⟨l1, l2, rfl⟩ := List.append_of_mem hr
    have hex : ∃ p ∈ (analyzeProjectDG (l1 ++ r :: l2)).packages, p.name = r.package ∧ r ∈ p.classes := by
      rw [analyzeProjectDG_packages]
      unfold dgFold
      rw [List.foldl_append, List.foldl_cons]
      exact dgFoldl_mem_mono l2 _ (dgAddRecord_mem_self _ r hne)
    have hnd : ((analyzeProjectDG (l1 ++ r :: l2)).packages.map (fun p => p.name)).Nodup := by
      rw [analyzeProjectDG_packages]
      unfold dgFold
      exact dgFoldl_nodup _ _ (by simp)
    have hcons : ∀ p ∈ (analyzeProjectDG (l1 ++ r :: l2)).packages,
        ∀ x ∈ p.classes, x.package = p.name := by
      rw [analyzeProjectDG_packages]
      unfold dgFold
      exact dgFoldl_consistent _ _ (by simp)
    rcases hex with ⟨p, hp, hpname, hpr⟩
    refine ⟨p, ⟨hp, hpr⟩, ?_⟩
    rintro p2 ⟨hp2, hp2r⟩
    have h1 : p2.name = r.package := (hcons p2 hp2 r hp2r).symm
    exact List.inj_on_of_nodup_map hnd hp2 hp (h1.trans hpname.symm)
  · intro rs r h
    have hE : r.package.isEmpty = true := by rw [h]; rfl
    refine ⟨?_, ?_, ?_, ?_⟩
    · rw [analyzeProjectDG_packages, analyzeProjectDG_packages, dgFold_append,
        dgAddRecord_packages, if_pos hE]
    · intro ht
      rw [analyzeProjectDG_classes, analyzeProjectDG_classes, dgFold_append,
        dgAddRecord_classes_of_class _ _ ht]
    · intro ht
      rw [analyzeProjectDG_interfaces, analyzeProjectDG_interfaces, dgFold_append,
        dgAddRecord_interfaces_of_interface _ _ ht]
    · intro ht
      rw [analyzeProjectDG_enums, analyzeProjectDG_enums, dgFold_append,
        dgAddRecord_enums_of_enum _ _ ht]
  · intro rs r h
    have hfold : psaFold (rs ++ [r]) = psaFold rs := by
      rw [psaFold_append, psaAddRecord_empty _ _ h]
    refine ⟨?_, ?_, ?_, ?_, ?_⟩
    · show (psaFold (rs ++ [r])).packages = (psaFold rs).packages
      rw [hfold]
    · show (psaFold (rs ++ [r])).classes = (psaFold rs).classes
      rw [hfold]
    · show (psaFold (rs ++ [r])).interfaces = (psaFold rs).interfaces
      rw [hfold]
    · show (psaFold (rs ++ [r])).enums = (psaFold rs).enums
      rw [hfold]
    · show (rs ++ [r]).length = rs.length + 1
      simp

/-- Witness for C3_amended at one-record projects. -/
theorem C3_amended_witness :
    (∃! p : DGPackage, p ∈ (analyzeProjectDG [demoPkgClassDG]).packages ∧ demoPkgClassDG ∈ p.classes)
    ∧ (analyzeProjectDG ([] ++ [demoClassDG])).classes
        = (analyzeProjectDG []).classes ++ [demoClassDG]
    ∧ (analyzeProjectStructurePSA ([] ++ [demoClassPSA])).classes
        = (analyzeProjectStructurePSA []).classes :=
  ⟨C3_amended.1 [demoPkgClassDG] demoPkgClassDG (by simp) (by decide),
   (C3_amended.2.1 [] demoClassDG (by decide)).2.1 (by decide),
   (C3_amended.2.2 [] demoClassPSA (by decide)).2.1⟩

end JavaAssistant
